import Mathlib

/-
  Verification of the memfs FUSE engine (src/bin/memfs.rs): a shallow
  embedding of the i-node cache and namespace engine, followed by theorems
  about its operations.  Timestamps are abstract Nat clock values and the
  current time is passed explicitly where the source calls SystemTime::now.
  Host file descriptors are carried as opaque numbers; host syscall results
  (fstat attributes, directory listings) are supplied by a Host record.
-/

namespace Memfs

/-- FileType from the fuse crate; the engine only uses these two variants. -/
inductive FileType where
  | Directory
  | RegularFile
deriving DecidableEq, Repr

/-- FileAttr from the fuse crate; timestamps are abstract clock values. -/
structure FileAttr where
  ino : Nat
  size : Nat
  blocks : Nat
  atime : Nat
  mtime : Nat
  ctime : Nat
  crtime : Nat
  kind : FileType
  perm : Nat
  nlink : Nat
  uid : Nat
  gid : Nat
  rdev : Nat
  flags : Nat
deriving DecidableEq, Repr

/-- DirEntry: (child ino, short name, kind); entries of unsupported host
kinds are filtered out at population time, so entry_type is already the
two-variant engine kind. -/
structure DirEntry where
  ino : Nat
  name : String
  entry_type : FileType
deriving DecidableEq, Repr

/-- DirNode: a directory i-node.  data is the per-directory ordered map
(BTreeMap) represented as a key-sorted association list; dir_fd is the
owned host directory stream fd, carried opaquely. -/
structure DirNode where
  parent : Nat
  name : String
  path : String
  attr : FileAttr
  data : List (String × DirEntry)
  dir_fd : Nat
  open_count : Int
  lookup_count : Int
deriving DecidableEq, Repr

/-- FileNode: a regular-file i-node; data is the content buffer. -/
structure FileNode where
  parent : Nat
  name : String
  path : String
  attr : FileAttr
  data : List Nat
  fd : Nat
  open_count : Int
  lookup_count : Int
deriving DecidableEq, Repr

/-- INode: sum of the two node variants. -/
inductive INode where
  | DIR : DirNode → INode
  | FILE : FileNode → INode
deriving DecidableEq, Repr

/-- Lookup in an association-list map (BTreeMap::get). -/
def mapGet {α β : Type} [DecidableEq α] : List (α × β) → α → Option β
  | [], _ => none
  | (k, v) :: rest, key => if k = key then some v else mapGet rest key

/-- Insert or replace in an association-list map (BTreeMap::insert);
replaces in place when the key is present, appends otherwise (the claims
proved below never depend on the position of a fresh cache key). -/
def mapPut {α β : Type} [DecidableEq α] : List (α × β) → α → β → List (α × β)
  | [], key, val => [(key, val)]
  | (k, v) :: rest, key, val =>
    if k = key then (key, val) :: rest else (k, v) :: mapPut rest key val

/-- Remove a key from an association-list map (BTreeMap::remove). -/
def mapDel {α β : Type} [DecidableEq α] : List (α × β) → α → List (α × β)
  | [], _ => []
  | (k, v) :: rest, key =>
    if k = key then mapDel rest key else (k, v) :: mapDel rest key

/-- Order-preserving insert for directory-entry tables: BTreeMap iterates
in key order, so the list is kept sorted by name. -/
def dirInsert : List (String × DirEntry) → String → DirEntry → List (String × DirEntry)
  | [], key, val => [(key, val)]
  | (k, v) :: rest, key, val =>
    if key = k then (key, val) :: rest
    else if key < k then (key, val) :: (k, v) :: rest
    else (k, v) :: dirInsert rest key val

/-- BTreeSet::insert for the trash set. -/
def trashPut (l : List Nat) (k : Nat) : List Nat :=
  if k ∈ l then l else k :: l

/-- BTreeSet::remove for the trash set. -/
def trashDel : List Nat → Nat → List Nat
  | [], _ => []
  | x :: rest, k => if x = k then trashDel rest k else x :: trashDel rest k

-- constants from the source
def MY_TTL_SEC : Nat := 1
def MY_GENERATION : Nat := 1
def FUSE_ROOT_ID : Nat := 1

-- errno values surfaced by the engine (Linux numbering)
def ENOENT : Int := 2
def EEXIST : Int := 17
def EINVAL : Int := 22
def ENOTEMPTY : Int := 39
def ENODATA : Int := 61

-- open-flag bits used by the engine (Linux numbering)
def O_RDONLY : Nat := 0
def O_RDWR : Nat := 2
def O_CREAT : Nat := 0o100
def O_EXCL : Nat := 0o200

/-- util::parse_mode: the u32 mode is truncated to u16 and then masked to
the defined Mode bits (0o7777) by from_bits_truncate. -/
def parse_mode (mode : Nat) : Nat := Nat.land (mode % 65536) 0o7777

-- file-type bits (Linux numbering, as in nix::sys::stat::SFlag)
def S_IFDIR : Nat := 0o040000
def S_IFREG : Nat := 0o100000

/-- util::parse_sflag: the u32 is truncated to u16 and masked to the
defined SFlag bits (S_IFMT = 0o170000) by from_bits_truncate. -/
def parse_sflag (flags : Nat) : Nat := Nat.land (flags % 65536) 0o170000

/-- util::convert_sflag: maps the type bits to the two supported kinds and
panics (none) on anything else — an unconditional panic, live in release
builds. -/
def convert_sflag (sflag : Nat) : Option FileType :=
  if sflag = S_IFDIR then some FileType.Directory
  else if sflag = S_IFREG then some FileType.RegularFile
  else none

-- ---------------------------------------------------------------------------
-- INode accessors (memfs.rs, impl INode)
-- ---------------------------------------------------------------------------

def INode.get_attr : INode → FileAttr
  | INode.DIR d => d.attr
  | INode.FILE f => f.attr

def INode.get_ino (n : INode) : Nat := n.get_attr.ino

def INode.get_parent_ino : INode → Nat
  | INode.DIR d => d.parent
  | INode.FILE f => f.parent

def INode.get_name : INode → String
  | INode.DIR d => d.name
  | INode.FILE f => f.name

def INode.get_type : INode → FileType
  | INode.DIR _ => FileType.Directory
  | INode.FILE _ => FileType.RegularFile

def INode.get_lookup_count : INode → Int
  | INode.DIR d => d.lookup_count
  | INode.FILE f => f.lookup_count

/-- inc_lookup_count as a state transformer (the source mutates an atomic
counter in place). -/
def INode.inc_lookup_count : INode → INode
  | INode.DIR d => INode.DIR { d with lookup_count := d.lookup_count + 1 }
  | INode.FILE f => INode.FILE { f with lookup_count := f.lookup_count + 1 }

/-- dec_lookup_count_by(nlookup) as a state transformer. -/
def INode.dec_lookup_count_by : INode → Nat → INode
  | INode.DIR d, n => INode.DIR { d with lookup_count := d.lookup_count - (n : Int) }
  | INode.FILE f, n => INode.FILE { f with lookup_count := f.lookup_count - (n : Int) }

/-- is_empty: emptiness of the variant-owned data (dir table / file buffer). -/
def INode.is_empty : INode → Bool
  | INode.DIR d => d.data.isEmpty
  | INode.FILE f => f.data.isEmpty

/-- need_load_data: data empty and cached size non-zero. -/
def INode.need_load_data (n : INode) : Bool :=
  if !n.is_empty then false
  else if n.get_attr.size > 0 then true
  else false

/-- get_entry on a directory node (the INode-level version panics on a file
node; handlers below model that panic by returning none after matching the
variant). -/
def DirNode.get_entry (d : DirNode) (name : String) : Option DirEntry :=
  mapGet d.data name

-- ---------------------------------------------------------------------------
-- File content buffer: write_file (memfs.rs lines 705-767)
-- ---------------------------------------------------------------------------

/-- write_file(fh, offset, data, oflags) on a regular-file node.  The
capacity reservation of the source has no observable effect on the buffer
contents and is omitted; the F_SETFL and pwrite host calls succeed by
assertion in the source and pwrite returns data.len() (asserted full
write).  offset is the kernel-provided non-negative i64, modelled as Nat;
now stands for SystemTime::now().  Returns the node after the write and
the written size. -/
def write_file (node : FileNode) (offset : Nat) (data : List Nat) (now : Nat) :
    FileNode × Nat :=
  let b := node.data
  -- match file_data.len().cmp(&offset): Greater truncates, Less zero-fills
  let b2 :=
    if b.length > offset then b.take offset
    else if b.length < offset then b ++ List.replicate (offset - b.length) 0
    else b
  let b3 := b2 ++ data
  let attr2 := { node.attr with size := b3.length, mtime := now }
  ({ node with data := b3, attr := attr2 }, data.length)

-- ---------------------------------------------------------------------------
-- read handler core (memfs.rs lines 1164-1238)
-- ---------------------------------------------------------------------------

/-- Reply type of the read handler. -/
inductive ReadReply where
  | data : List Nat → ReadReply
  | err : Int → ReadReply
deriving DecidableEq, Repr

/-- Rust slice content[a..b] as a list operation. -/
def listSlice (l : List Nat) (a b : Nat) : List Nat := (l.drop a).take (b - a)

/-- read_helper closure of the read handler: runs over the (loaded) content
buffer with the request offset and size. -/
def read_helper (content : List Nat) (offset size : Nat) : ReadReply :=
  if offset < content.length then
    if offset + size < content.length then
      ReadReply.data (listSlice content offset (offset + size))
    else
      ReadReply.data (content.drop offset)
  else
    ReadReply.err EINVAL

-- ---------------------------------------------------------------------------
-- readdir handler core (memfs.rs lines 1240-1316)
-- ---------------------------------------------------------------------------

/-- readdir_helper closure: data.iter().enumerate().skip(offset), and for
each yielded (i, (name, entry)) the reply receives
(entry.ino, offset + i + 1, kind, name).  Note that i is the ordinal in
the whole map because enumerate runs before skip. -/
def readdir_entries (data : List (String × DirEntry)) (offset : Nat) :
    List (Nat × Nat × FileType × String) :=
  (data.enum.drop offset).map
    (fun p => (p.2.2.ino, offset + p.1 + 1, p.2.2.entry_type, p.2.1))

-- ---------------------------------------------------------------------------
-- setattr handler core (memfs.rs lines 1440-1565)
-- ---------------------------------------------------------------------------

/-- The optional setattr arguments (fh is not part of the attribute update
logic and is omitted; timestamps are abstract Nat clock values). -/
structure SetattrArgs where
  mode : Option Nat
  uid : Option Nat
  gid : Option Nat
  size : Option Nat
  atime : Option Nat
  mtime : Option Nat
  crtime : Option Nat
  chgtime : Option Nat
  bkuptime : Option Nat
  flags : Option Nat
deriving DecidableEq, Repr

/-- Reply type of getattr/setattr (the TTL is the fixed MY_TTL_SEC). -/
inductive AttrReply where
  | attr : FileAttr → AttrReply
  | err : Int → AttrReply
deriving DecidableEq, Repr

/-- The is_some() disjunction guarding the ctime update and the reply. -/
def anyProvided (a : SetattrArgs) : Bool :=
  a.mode.isSome || a.uid.isSome || a.gid.isSome || a.size.isSome ||
  a.atime.isSome || a.mtime.isSome || a.crtime.isSome || a.chgtime.isSome ||
  a.bkuptime.isSome || a.flags.isSome

/-- The field-application tail of setattr_helper, after the mode branch
has survived convert_sflag: overwrite each provided field (perm2 is the
already-computed permission value; chgtime and bkuptime have no attribute
field and only count as provided), then either set ctime = now and reply
with the new attributes, or reply ENODATA. -/
def setattr_fields (now : Nat) (args : SetattrArgs) (a : FileAttr)
    (perm2 : Nat) : FileAttr × AttrReply :=
  let a1 :=
    { a with
      perm := perm2
      uid := args.uid.getD a.uid
      gid := args.gid.getD a.gid
      size := args.size.getD a.size
      atime := args.atime.getD a.atime
      mtime := args.mtime.getD a.mtime
      crtime := args.crtime.getD a.crtime
      flags := args.flags.getD a.flags }
  if anyProvided args then
    let a2 := { a1 with ctime := now }
    (a2, AttrReply.attr a2)
  else
    (a1, AttrReply.err ENODATA)

/-- setattr_helper closure: when mode is provided it recomputes perm
through parse_mode and runs util::convert_sflag on the truncated type
bits, which panics (none) unless they are exactly S_IFDIR or S_IFREG —
the engine then aborts before applying any other field and never replies
(the matching-kind debug_assert_eq is debug-only and elided); otherwise
the provided fields are applied as in setattr_fields. -/
def setattr_helper (now : Nat) (args : SetattrArgs) (a : FileAttr) :
    Option (FileAttr × AttrReply) :=
  match args.mode with
  | some m =>
    match convert_sflag (parse_sflag m) with
    | none => none
    | some _ => some (setattr_fields now args a (parse_mode m))
  | none => some (setattr_fields now args a a.perm)

/-- setattr applied to a regular-file node through INode::set_attr: the
attribute cell is updated, the content buffer is untouched; none when
setattr_helper panics in convert_sflag. -/
def setattr_file (now : Nat) (args : SetattrArgs) (node : FileNode) :
    Option (FileNode × AttrReply) :=
  match setattr_helper now args node.attr with
  | none => none
  | some r => some ({ node with attr := r.1 }, r.2)

/-- need_load for a regular-file node (need_load_data on the FILE variant). -/
def needLoadFile (node : FileNode) : Bool :=
  if !node.data.isEmpty then false
  else if node.attr.size > 0 then true
  else false

/-- Spec invariant 6: for a loaded regular-file node, the cached size equals
the buffer length. -/
def sizeInv (node : FileNode) : Prop :=
  needLoadFile node = false → node.attr.size = node.data.length

instance (node : FileNode) : Decidable (sizeInv node) := by
  unfold sizeInv; infer_instance

-- ---------------------------------------------------------------------------
-- Host surface: results of openat/fstat and of the directory stream,
-- keyed by the inode number the entry (or fstat) reports.
-- ---------------------------------------------------------------------------

/-- The host POSIX surface as far as materialisation needs it: attr_of ino
is what util::read_attr returns for the opened child, and listing ino is
the already-filtered directory stream content used by load_dir_data. -/
structure Host where
  attr_of : Nat → FileAttr
  listing : Nat → List (String × DirEntry)

/-- Record of an fcntl::openat host call (directory fd elided). -/
structure OpenatCall where
  name : String
  oflags : Nat
  mode : Nat
deriving DecidableEq, Repr

-- ---------------------------------------------------------------------------
-- Child open / create (memfs.rs lines 374-449 and 523-588)
-- ---------------------------------------------------------------------------

/-- helper_open_child_file(child_file_name, oflags, mode, create_file) on a
parent directory node: issues openat(dirfd, name, oflags, mode), reads the
child attributes, inserts the new directory entry when creating, and
builds the child node with both counters at 1.  Returns the openat call
record, the (possibly updated) parent node and the child node.  childAttr
is the host fstat result for the opened child. -/
def helper_open_child_file (pdir : DirNode) (parentIno : Nat) (name : String)
    (oflags mode : Nat) (create_file : Bool) (childAttr : FileAttr) :
    OpenatCall × DirNode × FileNode :=
  let call : OpenatCall := { name := name, oflags := oflags, mode := mode }
  let newEntry : DirEntry :=
    { ino := childAttr.ino, name := name, entry_type := FileType.RegularFile }
  let pdir2 :=
    if create_file then { pdir with data := dirInsert pdir.data name newEntry }
    else pdir
  let child : FileNode :=
    { parent := parentIno, name := name, path := pdir.path ++ "/" ++ name,
      attr := childAttr, data := [], fd := 0, open_count := 1, lookup_count := 1 }
  (call, pdir2, child)

/-- open_child_file(name, oflags): no creation, Mode::empty(). -/
def open_child_file (pdir : DirNode) (parentIno : Nat) (name : String)
    (oflags : Nat) (childAttr : FileAttr) : OpenatCall × DirNode × FileNode :=
  helper_open_child_file pdir parentIno name oflags 0 false childAttr

/-- create_child_file(name, oflags, mode): the source forwards
Mode::empty() instead of the mode argument (memfs.rs line 587), so the
openat mode is 0 regardless of the caller's mode bits. -/
def create_child_file (pdir : DirNode) (parentIno : Nat) (name : String)
    (oflags : Nat) (mode : Nat) (childAttr : FileAttr) :
    OpenatCall × DirNode × FileNode :=
  helper_open_child_file pdir parentIno name oflags 0 true childAttr

/-- helper_open_child_dir(child_dir_name, mode, create_dir): mkdirat when
creating, openat of the child directory stream, entry insertion when
creating, construction with both counters at 1, and eager load_dir_data
when need_load_data holds (fresh node: data empty, so load iff the host
size is non-zero).  listing is the filtered host directory stream. -/
def helper_open_child_dir (pdir : DirNode) (parentIno : Nat) (name : String)
    (create_dir : Bool) (childAttr : FileAttr)
    (listing : List (String × DirEntry)) : DirNode × DirNode :=
  let newEntry : DirEntry :=
    { ino := childAttr.ino, name := name, entry_type := FileType.Directory }
  let pdir2 :=
    if create_dir then { pdir with data := dirInsert pdir.data name newEntry }
    else pdir
  let child0 : DirNode :=
    { parent := parentIno, name := name, path := pdir.path ++ "/" ++ name,
      attr := childAttr, data := [], dir_fd := 0, open_count := 1, lookup_count := 1 }
  let child := if childAttr.size > 0 then { child0 with data := listing } else child0
  (pdir2, child)

-- ---------------------------------------------------------------------------
-- Engine state and the i-node table lifecycle (memfs.rs lines 770-1002)
-- ---------------------------------------------------------------------------

/-- MemoryFilesystem: uid/gid captured at startup, the i-node table and the
deferred-deletion trash set. -/
structure FS where
  uid : Nat
  gid : Nat
  cache : List (Nat × INode)
  trash : List Nat
deriving DecidableEq, Repr

/-- Reply type of unlink/rmdir (ReplyEmpty). -/
inductive EmptyReply where
  | ok
  | err : Int → EmptyReply
deriving DecidableEq, Repr

/-- Reply type of lookup/mknod/mkdir (ReplyEntry; TTL and generation are the
fixed constants and are elided). -/
inductive EntryReply where
  | entry : FileAttr → EntryReply
  | err : Int → EntryReply
deriving DecidableEq, Repr

/-- helper_unlink_node_by_ino: find the i-node and unlink through
unlink_entry.  unlink_entry panics when the parent is not a directory or
the entry is absent; when it does find the entry it issues unlinkat on
the host and then ALWAYS panics before editing any cached state: the Ref
guard created by the borrow of the parent table at memfs.rs line 620 is
lifetime-extended to the end of the function and is still held when
borrow_mut() runs at line 654, a guaranteed RefCell BorrowMutError.  So
every path of this function aborts the process (none); the entry removal,
the table removal and the callers' replies after it are dead code. -/
def helper_unlink_node_by_ino (fs : FS) (ino : Nat) : Option (FS × INode) :=
  match mapGet fs.cache ino with
  | none => none
  | some inode =>
    let node_name := inode.get_name
    match mapGet fs.cache inode.get_parent_ino with
    | none => none
    | some (INode.FILE _) => none
    | some (INode.DIR pdir) =>
      match mapGet pdir.data node_name with
      | none => none
      | some _ => none

/-- Second block of helper_remove_node, entered after all pre-checks have
passed: deferred deletion into the trash when the lookup count is
positive, immediate unlink otherwise. -/
def helper_remove_node_commit (fs : FS) (node_ino : Nat) :
    Option (FS × EmptyReply) :=
  match mapGet fs.cache node_ino with
  | none => none
  | some inode =>
    if inode.get_lookup_count > 0 then
      some ({ fs with trash := trashPut fs.trash node_ino }, EmptyReply.ok)
    else
      match helper_unlink_node_by_ino fs node_ino with
      | none => none
      | some (fs2, _) => some (fs2, EmptyReply.ok)

/-- helper_remove_node(parent, node_name, node_type): ENOENT when the name
is absent, ENOTEMPTY when removing a non-empty directory, then commit. -/
def helper_remove_node (fs : FS) (parent : Nat) (name : String)
    (ty : FileType) : Option (FS × EmptyReply) :=
  match mapGet fs.cache parent with
  | none => none
  | some (INode.FILE _) => none
  | some (INode.DIR pdir) =>
    match mapGet pdir.data name with
    | none => some (fs, EmptyReply.err ENOENT)
    | some ent =>
      match ty with
      | FileType.Directory =>
        match mapGet fs.cache ent.ino with
        | none => none
        | some dirNode =>
          if dirNode.is_empty = false then some (fs, EmptyReply.err ENOTEMPTY)
          else helper_remove_node_commit fs ent.ino
      | FileType.RegularFile =>
        match mapGet fs.cache ent.ino with
        | none => none
        | some _ => helper_remove_node_commit fs ent.ino

/-- forget(ino, nlookup): decrement the lookup count by nlookup; if the
resulting count is zero and the ino is in the trash, perform the deferred
unlink and drop the ino from the trash. -/
def forget (fs : FS) (ino : Nat) (nlookup : Nat) : Option FS :=
  match mapGet fs.cache ino with
  | none => none
  | some inode =>
    let inode2 := inode.dec_lookup_count_by nlookup
    let fs1 : FS := { fs with cache := mapPut fs.cache ino inode2 }
    if inode2.get_lookup_count = 0 then
      if ino ∈ fs1.trash then
        match helper_unlink_node_by_ino fs1 ino with
        | none => none
        | some (fs2, _) => some { fs2 with trash := trashDel fs2.trash ino }
      else some fs1
    else some fs1

/-- lookup(parent, name): resolve the entry (ENOENT when absent); on a
cache hit run lookup_attr (replies with the attributes and increments the
lookup count); on a cache miss open the child from the host, run
lookup_attr on the freshly built node (whose counters start at 1) and
install it in the table. -/
def lookup (host : Host) (fs : FS) (parent : Nat) (name : String) :
    Option (FS × EntryReply) :=
  match mapGet fs.cache parent with
  | none => none
  | some (INode.FILE _) => none
  | some (INode.DIR pdir) =>
    match mapGet pdir.data name with
    | none => some (fs, EntryReply.err ENOENT)
    | some ent =>
      match mapGet fs.cache ent.ino with
      | some inode =>
        some ({ fs with cache := mapPut fs.cache ent.ino inode.inc_lookup_count },
          EntryReply.entry inode.get_attr)
      | none =>
        match ent.entry_type with
        | FileType.Directory =>
          let r := helper_open_child_dir pdir parent name false
            (host.attr_of ent.ino) (host.listing ent.ino)
          let child := INode.DIR r.2
          some ({ fs with
              cache := mapPut fs.cache child.get_ino child.inc_lookup_count },
            EntryReply.entry child.get_attr)
        | FileType.RegularFile =>
          let r := open_child_file pdir parent name O_RDONLY (host.attr_of ent.ino)
          let child := INode.FILE r.2.2
          some ({ fs with
              cache := mapPut fs.cache child.get_ino child.inc_lookup_count },
            EntryReply.entry child.get_attr)

/-- helper_create_node(parent, node_name, mode, node_type): EEXIST when the
name is already present; otherwise create the child (directory through
create_child_dir with parse_mode(mode), regular file through
create_child_file with O_CREAT|O_EXCL|O_RDWR and parse_mode(mode)),
install it and reply with its attributes.  The result also carries the
openat call issued for a regular-file creation. -/
def helper_create_node (fs : FS) (parent : Nat) (name : String) (mode : Nat)
    (ty : FileType) (childAttr : FileAttr)
    (listing : List (String × DirEntry)) :
    Option (FS × EntryReply × Option OpenatCall) :=
  match mapGet fs.cache parent with
  | none => none
  | some (INode.FILE _) => none
  | some (INode.DIR pdir) =>
    match mapGet pdir.data name with
    | some _ => some (fs, EntryReply.err EEXIST, none)
    | none =>
      let mflags := parse_mode mode
      match ty with
      | FileType.Directory =>
        let r := helper_open_child_dir pdir parent name true childAttr listing
        let cache2 :=
          mapPut (mapPut fs.cache parent (INode.DIR r.1)) r.2.attr.ino (INode.DIR r.2)
        some ({ fs with cache := cache2 }, EntryReply.entry r.2.attr, none)
      | FileType.RegularFile =>
        let oflags := O_CREAT ||| O_EXCL ||| O_RDWR
        let r := create_child_file pdir parent name oflags mflags childAttr
        let cache2 :=
          mapPut (mapPut fs.cache parent (INode.DIR r.2.1)) r.2.2.attr.ino
            (INode.FILE r.2.2)
        some ({ fs with cache := cache2 }, EntryReply.entry r.2.2.attr, some r.1)

/-- mknod(parent, name, mode, rdev) = create(parent, name, RegularFile,
mode); rdev is accepted and ignored. -/
def mknod (fs : FS) (parent : Nat) (name : String) (mode : Nat) (rdev : Nat)
    (childAttr : FileAttr) : Option (FS × EntryReply × Option OpenatCall) :=
  let _ := rdev
  helper_create_node fs parent name mode FileType.RegularFile childAttr []

-- ---------------------------------------------------------------------------
-- Map and set lemmas
-- ---------------------------------------------------------------------------

theorem mapGet_mapPut_self {α β : Type} [DecidableEq α] (m : List (α × β))
    (k : α) (v : β) : mapGet (mapPut m k v) k = some v := by
  induction m with
  | nil => simp [mapPut, mapGet]
  | cons p rest ih =>
    obtain ⟨k1, v1⟩ := p
    by_cases h : k1 = k
    · subst h; simp [mapPut, mapGet]
    · simp [mapPut, mapGet, h, ih]

theorem mapGet_mapPut_ne {α β : Type} [DecidableEq α] (m : List (α × β))
    (k k2 : α) (v : β) (h : k2 ≠ k) :
    mapGet (mapPut m k v) k2 = mapGet m k2 := by
  induction m with
  | nil => simp [mapPut, mapGet, Ne.symm h]
  | cons p rest ih =>
    obtain ⟨k1, v1⟩ := p
    by_cases h1 : k1 = k
    · subst h1
      simp [mapPut, mapGet, Ne.symm h]
    · simp [mapPut, mapGet, h1, ih]

theorem mapGet_mapDel_self {α β : Type} [DecidableEq α] (m : List (α × β))
    (k : α) : mapGet (mapDel m k) k = none := by
  induction m with
  | nil => simp [mapDel, mapGet]
  | cons p rest ih =>
    obtain ⟨k1, v1⟩ := p
    by_cases h : k1 = k
    · subst h; simp [mapDel, ih]
    · simp [mapDel, mapGet, h, ih]

theorem mapGet_mapDel_ne {α β : Type} [DecidableEq α] (m : List (α × β))
    (k k2 : α) (h : k2 ≠ k) : mapGet (mapDel m k) k2 = mapGet m k2 := by
  induction m with
  | nil => simp [mapDel, mapGet]
  | cons p rest ih =>
    obtain ⟨k1, v1⟩ := p
    by_cases h1 : k1 = k
    · subst h1; simp [mapDel, mapGet, Ne.symm h, ih]
    · simp [mapDel, mapGet, h1, ih]

theorem mem_trashPut_self (l : List Nat) (k : Nat) : k ∈ trashPut l k := by
  unfold trashPut
  by_cases h : k ∈ l <;> simp [h]

theorem not_mem_trashDel_self (l : List Nat) (k : Nat) : k ∉ trashDel l k := by
  induction l with
  | nil => simp [trashDel]
  | cons x rest ih =>
    by_cases h : x = k
    · subst h; simp [trashDel, ih]
    · simp [trashDel, h, ih]
      exact fun hh => h (hh.symm)

-- accessor lemmas for dec_lookup_count_by / inc_lookup_count

theorem get_parent_ino_dec (node : INode) (n : Nat) :
    (node.dec_lookup_count_by n).get_parent_ino = node.get_parent_ino := by
  cases node <;> rfl

theorem get_name_dec (node : INode) (n : Nat) :
    (node.dec_lookup_count_by n).get_name = node.get_name := by
  cases node <;> rfl

theorem get_lookup_count_dec (node : INode) (n : Nat) :
    (node.dec_lookup_count_by n).get_lookup_count =
      node.get_lookup_count - (n : Int) := by
  cases node <;> rfl

-- write_file re-establishes size = buffer length (shared by C4 and C5)

theorem write_file_size_eq_len (node : FileNode) (offset : Nat)
    (data : List Nat) (now : Nat) :
    (write_file node offset data now).1.attr.size =
      (write_file node offset data now).1.data.length := rfl

-- setattr_helper field lemmas (shared by C4 and C9)

theorem setattr_fields_fst_size (now : Nat) (args : SetattrArgs) (a : FileAttr)
    (perm2 : Nat) :
    (setattr_fields now args a perm2).1.size = args.size.getD a.size := by
  unfold setattr_fields
  by_cases h : anyProvided args = true
  · rw [if_pos h]
  · rw [if_neg h]

theorem setattr_helper_some_size (now : Nat) (args : SetattrArgs) (a : FileAttr)
    (r : FileAttr × AttrReply) (h : setattr_helper now args a = some r) :
    r.1.size = args.size.getD a.size := by
  unfold setattr_helper at h
  cases hm : args.mode with
  | none =>
    rw [hm] at h
    simp only [Option.some.injEq] at h
    rw [← h]
    exact setattr_fields_fst_size now args a a.perm
  | some m =>
    simp only [hm] at h
    cases hc : convert_sflag (parse_sflag m) with
    | none => simp only [hc] at h; exact Option.noConfusion h
    | some k =>
      simp only [hc, Option.some.injEq] at h
      rw [← h]
      exact setattr_fields_fst_size now args a (parse_mode m)

theorem setattr_file_some_data (now : Nat) (args : SetattrArgs)
    (node : FileNode) (r : FileNode × AttrReply)
    (h : setattr_file now args node = some r) : r.1.data = node.data := by
  unfold setattr_file at h
  cases hh : setattr_helper now args node.attr with
  | none => rw [hh] at h; exact absurd h (by simp)
  | some r2 =>
    rw [hh] at h
    simp only [Option.some.injEq] at h
    rw [← h]

theorem setattr_file_some_size (now : Nat) (args : SetattrArgs)
    (node : FileNode) (r : FileNode × AttrReply)
    (h : setattr_file now args node = some r) :
    r.1.attr.size = args.size.getD node.attr.size := by
  unfold setattr_file at h
  cases hh : setattr_helper now args node.attr with
  | none => rw [hh] at h; exact absurd h (by simp)
  | some r2 =>
    rw [hh] at h
    simp only [Option.some.injEq] at h
    rw [← h]
    exact setattr_helper_some_size now args node.attr r2 hh

/-- The provided-field part of setattr_fields when at least one argument
is provided: the reply carries the new attributes, ctime is now, perm is
the precomputed value, each provided field is written through and the
rest is unchanged. -/
theorem setattr_fields_spec (now : Nat) (args : SetattrArgs) (a : FileAttr)
    (p : Nat) (hp : anyProvided args = true) :
    ∃ a2, setattr_fields now args a p = (a2, AttrReply.attr a2) ∧
      a2.ctime = now ∧ a2.perm = p ∧
      a2.uid = args.uid.getD a.uid ∧ a2.gid = args.gid.getD a.gid ∧
      a2.size = args.size.getD a.size ∧ a2.atime = args.atime.getD a.atime ∧
      a2.mtime = args.mtime.getD a.mtime ∧ a2.crtime = args.crtime.getD a.crtime ∧
      a2.flags = args.flags.getD a.flags ∧
      a2.ino = a.ino ∧ a2.kind = a.kind ∧ a2.nlink = a.nlink ∧
      a2.blocks = a.blocks ∧ a2.rdev = a.rdev := by
  unfold setattr_fields
  simp only [hp, if_true]
  exact ⟨_, rfl, rfl, rfl, rfl, rfl, rfl, rfl, rfl, rfl, rfl, rfl, rfl, rfl,
    rfl, rfl⟩

-- ---------------------------------------------------------------------------
-- Concrete fixtures used by witnesses and evaluation theorems
-- ---------------------------------------------------------------------------

/-- A concrete attribute record with the given ino, size and perm. -/
def mkAttr (ino size perm : Nat) (kind : FileType) : FileAttr :=
  { ino := ino, size := size, blocks := 0, atime := 0, mtime := 0, ctime := 0,
    crtime := 0, kind := kind, perm := perm, nlink := 1, uid := 0, gid := 0,
    rdev := 0, flags := 0 }

def entF : DirEntry := { ino := 2, name := "f", entry_type := FileType.RegularFile }

def fileNodeW (lc : Int) : FileNode :=
  { parent := 1, name := "f", path := "/tmp/f",
    attr := mkAttr 2 0 420 FileType.RegularFile, data := [], fd := 7,
    open_count := 1, lookup_count := lc }

def rootW : DirNode :=
  { parent := 1, name := "/", path := "/tmp",
    attr := mkAttr 1 4096 493 FileType.Directory, data := [("f", entF)],
    dir_fd := 3, open_count := 1, lookup_count := 1 }

def fsW (lc : Int) : FS :=
  { uid := 0, gid := 0,
    cache := [(1, INode.DIR rootW), (2, INode.FILE (fileNodeW lc))], trash := [] }

def fsT : FS :=
  { uid := 0, gid := 0,
    cache := [(1, INode.DIR rootW), (2, INode.FILE (fileNodeW 2))], trash := [2] }

def argsW0 : SetattrArgs :=
  { mode := none, uid := none, gid := none, size := none, atime := none,
    mtime := none, crtime := none, chgtime := none, bkuptime := none,
    flags := none }

def argsW1 : SetattrArgs := { argsW0 with uid := some 5 }

def argsModeBad : SetattrArgs := { argsW0 with mode := some 420 }

def attrW : FileAttr := mkAttr 2 0 420 FileType.RegularFile

def nodeC4 : FileNode :=
  { parent := 1, name := "g", path := "/tmp/g",
    attr := mkAttr 3 3 420 FileType.RegularFile, data := [97, 98, 99], fd := 8,
    open_count := 1, lookup_count := 1 }

def argsSize7 : SetattrArgs := { argsW0 with size := some 7 }

def attrC4sz : FileAttr :=
  { mkAttr 3 3 420 FileType.RegularFile with size := 7, ctime := 5 }

def nodeC4sz : FileNode := { nodeC4 with attr := attrC4sz }

def hostC3 : Host :=
  { attr_of := fun _ => mkAttr 2 0 420 FileType.RegularFile,
    listing := fun _ => [] }

def fsC3 : FS :=
  { uid := 0, gid := 0, cache := [(1, INode.DIR rootW)], trash := [] }

def rootE : DirNode := { rootW with data := [] }

def fsC8 : FS :=
  { uid := 0, gid := 0, cache := [(1, INode.DIR rootE)], trash := [] }

def attrC8 : FileAttr := mkAttr 2 0 420 FileType.RegularFile

-- ---------------------------------------------------------------------------
-- Claim theorems
-- ---------------------------------------------------------------------------

/-- C5: write_file(handle, offset, data) on a regular-file node whose buffer
holds bytes b produces the buffer take offset b (the first min(len b,
offset) bytes) followed by offset - len b zero bytes (empty when len b ≥
offset) followed by data; attributes.size becomes the new buffer length,
attributes.mtime becomes now, and the returned written size is the length
of data. -/
theorem C5_write_file_spec (node : FileNode) (offset : Nat) (data : List Nat)
    (now : Nat) :
    (write_file node offset data now).1.data =
      node.data.take offset ++ List.replicate (offset - node.data.length) 0 ++ data ∧
    (write_file node offset data now).1.attr.size =
      (write_file node offset data now).1.data.length ∧
    (write_file node offset data now).1.attr.mtime = now ∧
    (write_file node offset data now).2 = data.length := by
  refine ⟨?_, rfl, rfl, rfl⟩
  unfold write_file
  by_cases h1 : node.data.length > offset
  · simp [h1, Nat.sub_eq_zero_of_le (Nat.le_of_lt h1)]
  · by_cases h2 : node.data.length < offset
    · simp [h1, h2, List.take_of_length_le (Nat.le_of_lt h2)]
    · have he : node.data.length = offset := by omega
      simp [h1, h2, ← he, List.take_length]

/-- C6: readdir at offset k lists the entries from ordinal k onward of the
ordered map, but the i-th listed entry carries next_offset = 2k + i + 1
(the source adds offset to the absolute enumerate index) instead of the
claimed k + i + 1; at k = 1 over three entries the first listed entry
carries next_offset 3 where the claim requires 1 + 0 + 1 = 2. -/
theorem C6_readdir_offset_evaluation :
    readdir_entries
      [("a", { ino := 11, name := "a", entry_type := FileType.RegularFile }),
       ("b", { ino := 12, name := "b", entry_type := FileType.RegularFile }),
       ("c", { ino := 13, name := "c", entry_type := FileType.RegularFile })] 1 =
      [(12, 3, FileType.RegularFile, "b"), (13, 4, FileType.RegularFile, "c")] ∧
    (3 : Nat) ≠ 1 + 0 + 1 := by
  constructor
  · rfl
  · decide

/-- C7: read on a loaded content buffer replies with the slice
content[offset .. min(offset + size, len)] when offset < len, and with
EINVAL when offset ≥ len (never an empty success). -/
theorem C7_read_spec (content : List Nat) (offset size : Nat) :
    (offset < content.length →
      read_helper content offset size =
        ReadReply.data (listSlice content offset (min (offset + size) content.length))) ∧
    (content.length ≤ offset →
      read_helper content offset size = ReadReply.err EINVAL) := by
  constructor
  · intro h
    unfold read_helper
    rw [if_pos h]
    by_cases h2 : offset + size < content.length
    · rw [if_pos h2, Nat.min_eq_left (Nat.le_of_lt h2)]
    · rw [if_neg h2, Nat.min_eq_right (Nat.le_of_not_lt h2)]
      unfold listSlice
      rw [← List.length_drop, List.take_length]
  · intro h
    unfold read_helper
    rw [if_neg (Nat.not_lt.mpr h)]

/-- Witness for C7 at concrete inputs: an in-range read of one byte and an
out-of-range read. -/
theorem C7_read_witness :
    read_helper [5, 6, 7] 1 1 =
      ReadReply.data (listSlice [5, 6, 7] 1 (min 2 3)) ∧
    read_helper [5, 6, 7] 5 1 = ReadReply.err EINVAL :=
  ⟨(C7_read_spec [5, 6, 7] 1 1).1 (by decide),
   (C7_read_spec [5, 6, 7] 5 1).2 (by decide)⟩

/-- C9 counterexample: setattr providing only mode = 0o644 (whose
truncated type bits are 0, neither S_IFDIR nor S_IFREG) panics in
util::convert_sflag, so the engine aborts with no reply and no attribute
update, where the claim requires a reply carrying the new attributes
whenever at least one field is provided. -/
theorem C9_counterexample :
    anyProvided argsModeBad = true ∧
    setattr_helper 9 argsModeBad attrW = none := by
  constructor
  · decide
  · decide

/-- C9 amended: setattr with no provided field replies ENODATA and leaves
every cached attribute (ctime included) unchanged; with a provided mode
whose truncated type bits are not exactly S_IFDIR or S_IFREG the engine
panics in util::convert_sflag and never replies; otherwise, with at
least one provided field, each provided attribute field is overwritten,
ctime is set to now, the non-provided fields are unchanged and the reply
carries the new attributes. -/
theorem C9_setattr_spec (now : Nat) (args : SetattrArgs) (a : FileAttr) :
    (args.mode = none ∧ args.uid = none ∧ args.gid = none ∧ args.size = none ∧
     args.atime = none ∧ args.mtime = none ∧ args.crtime = none ∧
     args.chgtime = none ∧ args.bkuptime = none ∧ args.flags = none →
      setattr_helper now args a = some (a, AttrReply.err ENODATA)) ∧
    (∀ m, args.mode = some m → convert_sflag (parse_sflag m) = none →
      setattr_helper now args a = none) ∧
    (anyProvided args = true →
      (∀ m, args.mode = some m →
        parse_sflag m = S_IFDIR ∨ parse_sflag m = S_IFREG) →
      ∃ a2, setattr_helper now args a = some (a2, AttrReply.attr a2) ∧
        a2.ctime = now ∧
        a2.perm = (match args.mode with | some m => parse_mode m | none => a.perm) ∧
        a2.uid = args.uid.getD a.uid ∧ a2.gid = args.gid.getD a.gid ∧
        a2.size = args.size.getD a.size ∧ a2.atime = args.atime.getD a.atime ∧
        a2.mtime = args.mtime.getD a.mtime ∧ a2.crtime = args.crtime.getD a.crtime ∧
        a2.flags = args.flags.getD a.flags ∧
        a2.ino = a.ino ∧ a2.kind = a.kind ∧ a2.nlink = a.nlink ∧
        a2.blocks = a.blocks ∧ a2.rdev = a.rdev) := by
  refine ⟨?_, ?_, ?_⟩
  · rintro ⟨h1, h2, h3, h4, h5, h6, h7, h8, h9, h10⟩
    have hap : ¬ anyProvided args = true := by
      simp [anyProvided, h1, h2, h3, h4, h5, h6, h7, h8, h9, h10]
    simp only [setattr_helper, h1]
    unfold setattr_fields
    simp only [hap, if_false, h2, h3, h4, h5, h6, h7, h8, h9, h10,
      Option.getD_none]
    rfl
  · intro m hm hc
    simp only [setattr_helper, hm, hc]
  · intro hp hmode
    cases hm : args.mode with
    | none =>
      obtain ⟨a2, heq, hrest⟩ := setattr_fields_spec now args a a.perm hp
      refine ⟨a2, ?_, ?_⟩
      · simp only [setattr_helper, hm, heq]
      · simpa [hm] using hrest
    | some m =>
      obtain ⟨k, hk⟩ : ∃ k, convert_sflag (parse_sflag m) = some k := by
        rcases hmode m hm with h | h <;>
          simp [convert_sflag, h, S_IFDIR, S_IFREG]
      obtain ⟨a2, heq, hrest⟩ := setattr_fields_spec now args a (parse_mode m) hp
      refine ⟨a2, ?_, ?_⟩
      · simp only [setattr_helper, hm, hk, heq]
      · simpa [hm] using hrest

/-- Witness for C9: the empty argument set replies ENODATA on a concrete
attribute record, and a provided uid (no mode) is written through. -/
theorem C9_setattr_witness :
    setattr_helper 9 argsW0 attrW = some (attrW, AttrReply.err ENODATA) ∧
    (setattr_helper 9 argsW1 attrW).map (fun r => r.1.uid) = some 5 := by
  constructor
  · exact (C9_setattr_spec 9 argsW0 attrW).1
      ⟨rfl, rfl, rfl, rfl, rfl, rfl, rfl, rfl, rfl, rfl⟩
  · obtain ⟨a2, heq, _, _, huid, _⟩ := (C9_setattr_spec 9 argsW1 attrW).2.2
      (by decide) (by intro m hm; simp [argsW1, argsW0] at hm)
    rw [heq]
    simpa [argsW1, argsW0] using huid

/-- C4 counterexample: a loaded regular-file node with buffer abc and
cached size 3 satisfies the size invariant, but setattr with size = 7
(and no mode, so the operation completes) overwrites attributes.size
without touching the buffer, and the invariant fails on the resulting
node. -/
theorem C4_counterexample :
    sizeInv nodeC4 ∧
    setattr_file 5 argsSize7 nodeC4 = some (nodeC4sz, AttrReply.attr attrC4sz) ∧
    ¬ sizeInv nodeC4sz := by
  refine ⟨by decide, by decide, by decide⟩

/-- C4 amended: whenever setattr completes (it panics in convert_sflag on
a mode with unsupported type bits), it preserves the size invariant if no
size field is provided, and it sets attributes.size to a provided size s
while leaving the buffer untouched — so it preserves the invariant only
when s equals the loaded buffer length; write_file always re-establishes
the invariant. -/
theorem C4_sizeInv_amended (node : FileNode) (args : SetattrArgs)
    (now offset now2 : Nat) (data : List Nat) (hinv : sizeInv node) :
    (args.size = none →
      ∀ r, setattr_file now args node = some r → sizeInv r.1) ∧
    (∀ r, setattr_file now args node = some r →
      r.1.data = node.data ∧
      ∀ s, args.size = some s → r.1.attr.size = s) ∧
    sizeInv (write_file node offset data now2).1 := by
  refine ⟨?_, ?_, ?_⟩
  · intro h r hr
    have hdata := setattr_file_some_data now args node r hr
    have hsize : r.1.attr.size = node.attr.size := by
      rw [setattr_file_some_size now args node r hr, h, Option.getD_none]
    unfold sizeInv needLoadFile at hinv ⊢
    rw [hdata, hsize]
    exact hinv
  · intro r hr
    refine ⟨setattr_file_some_data now args node r hr, ?_⟩
    intro s hs
    rw [setattr_file_some_size now args node r hr, hs, Option.getD_some]
  · unfold sizeInv
    intro _
    exact write_file_size_eq_len node offset data now2

/-- Witness for C4 amended at a concrete node: setattr with no fields
completes and leaves the invariant intact, as does a sparse write. -/
theorem C4_sizeInv_witness :
    sizeInv nodeC4 ∧
    sizeInv (write_file nodeC4 10 [1, 2] 7).1 :=
  ⟨(C4_sizeInv_amended nodeC4 argsW0 5 10 7 [1, 2] (by decide)).1 rfl
      (nodeC4, AttrReply.err ENODATA) (by decide),
   (C4_sizeInv_amended nodeC4 argsW0 5 10 7 [1, 2] (by decide)).2.2⟩

/-- C1: on a state whose pre-checks pass, remove with a positive child
lookup count defers as claimed — reply ok, the child ino enters the
trash, the i-node table and the parent table are untouched; but the
immediate-unlink branch (lookup count 0) never completes: unlink_entry
aborts the process with a RefCell BorrowMutError (the Ref of memfs.rs
line 620 is still held at the borrow_mut of line 654) after the host
unlinkat and before any table edit or reply, so the claimed entry and
i-node removals and the ok reply never happen.  Evaluated on a concrete
two-node state: lookup count 1 defers, lookup count 0 panics (none). -/
theorem C1_remove_evaluation :
    helper_remove_node (fsW 1) 1 "f" FileType.RegularFile =
      some ({ fsW 1 with trash := trashPut (fsW 1).trash 2 }, EmptyReply.ok) ∧
    helper_remove_node (fsW 0) 1 "f" FileType.RegularFile = none := by
  constructor
  · decide
  · decide

/-- C2: forget decrements the lookup count by exactly n and edits nothing
else while the new count stays nonzero (even with the ino trash-marked),
but the delayed-unlink transition never completes: when the decremented
count is 0 and the ino is in the trash, helper_unlink_node_by_ino aborts
with the RefCell BorrowMutError of unlink_entry (memfs.rs lines 620/654)
before any cache or trash edit.  Evaluated on a concrete trash-marked
state with lookup count 2: forget(2, 1) leaves count 2 - 1 and nothing
else changes; forget(2, 2) panics (none). -/
theorem C2_forget_evaluation :
    forget fsT 2 1 =
      some ({ fsT with
        cache :=
          mapPut fsT.cache 2 ((INode.FILE (fileNodeW 2)).dec_lookup_count_by 1) }) ∧
    ((INode.FILE (fileNodeW 2)).dec_lookup_count_by 1).get_lookup_count = 2 - 1 ∧
    forget fsT 2 2 = none := by
  refine ⟨by decide, by decide, by decide⟩

/-- C10: when the decremented lookup count is nonzero or the ino is not in
the trash, forget only rewrites the i-node with the decremented counter:
nothing is removed from the i-node table (the ino stays present, all
other keys are untouched) and the trash set is unchanged. -/
theorem C10_forget_frame (fs : FS) (ino n : Nat) (node : INode)
    (hc : mapGet fs.cache ino = some node)
    (hcond : (node.dec_lookup_count_by n).get_lookup_count ≠ 0 ∨ ino ∉ fs.trash) :
    forget fs ino n =
      some { fs with cache := mapPut fs.cache ino (node.dec_lookup_count_by n) } ∧
    mapGet (mapPut fs.cache ino (node.dec_lookup_count_by n)) ino =
      some (node.dec_lookup_count_by n) ∧
    (∀ k, k ≠ ino → mapGet (mapPut fs.cache ino (node.dec_lookup_count_by n)) k =
      mapGet fs.cache k) ∧
    (node.dec_lookup_count_by n).get_lookup_count =
      node.get_lookup_count - (n : Int) := by
  refine ⟨?_, mapGet_mapPut_self _ _ _,
    fun k hk => mapGet_mapPut_ne _ _ _ _ hk, get_lookup_count_dec node n⟩
  unfold forget
  simp only [hc]
  by_cases h0 : (node.dec_lookup_count_by n).get_lookup_count = 0
  · rcases hcond with hne0 | hnotin
    · exact absurd h0 hne0
    · rw [if_pos h0, if_neg hnotin]
  · rw [if_neg h0]

/-- Witness for C10: forget(2, 1) on a node with lookup count 5 and an
empty trash leaves the node in the table with count 4. -/
theorem C10_forget_witness :
    forget (fsW 5) 2 1 =
      some ({ fsW 5 with
        cache :=
          mapPut (fsW 5).cache 2 ((INode.FILE (fileNodeW 5)).dec_lookup_count_by 1) }) :=
  (C10_forget_frame (fsW 5) 2 1 (INode.FILE (fileNodeW 5)) (by decide)
    (Or.inl (by decide))).1

/-- C3: a single cache-miss lookup of (root, f) on a state where f is not
yet materialised succeeds (one successful lookup reply) but leaves
lookup_count = 2 — the node is built with lookup_count 1 and lookup_attr
increments it again — where the claim requires 1; a subsequent
forget(ino, 1), matching the kernel's single reference, leaves count 1,
so the count never returns to 0. -/
theorem C3_lookup_count_evaluation :
    (lookup hostC3 fsC3 1 "f").map (fun p => p.2) =
      some (EntryReply.entry (mkAttr 2 0 420 FileType.RegularFile)) ∧
    (lookup hostC3 fsC3 1 "f").map
      (fun p => (mapGet p.1.cache 2).map INode.get_lookup_count) =
      some (some 2) ∧
    (2 : Int) ≠ 1 ∧
    ((lookup hostC3 fsC3 1 "f").bind (fun p => forget p.1 2 1)).map
      (fun fs2 => (mapGet fs2.cache 2).map INode.get_lookup_count) =
      some (some 1) := by
  refine ⟨rfl, rfl, by decide, rfl⟩

/-- C8: mknod(root, f, 0o644, rdev) with f absent creates through
create_child_file with openat flags O_CREAT|O_EXCL|O_RDWR and inserts the
new entry into the parent table, and rdev is ignored — but the openat
mode is 0 (the source forwards Mode::empty()), not the caller's
parse_mode(0o644) = 0o644. -/
theorem C8_mknod_mode_evaluation :
    (mknod fsC8 1 "f" 420 0 attrC8).map (fun r => r.2.2) =
      some (some { name := "f", oflags := O_CREAT ||| O_EXCL ||| O_RDWR, mode := 0 }) ∧
    parse_mode 420 = 420 ∧
    (0 : Nat) ≠ parse_mode 420 ∧
    mknod fsC8 1 "f" 420 0 attrC8 = mknod fsC8 1 "f" 420 99 attrC8 ∧
    (mknod fsC8 1 "f" 420 0 attrC8).map (fun r =>
      (mapGet r.1.cache 1).map (fun node =>
        match node with
        | INode.DIR d => mapGet d.data "f"
        | INode.FILE _ => none)) =
      some (some (some { ino := 2, name := "f", entry_type := FileType.RegularFile })) := by
  refine ⟨rfl, by decide, by decide, rfl, rfl⟩

end Memfs
